import Mathlib

/-!
Shallow embedding of the traffic / pedestrian simulation core of the
bombaycity repository, together with proofs settling the frozen claims.

Sources embedded here:
- src/app/components/game/types.ts               (data model, constants)
- src/app/components/game/roadUtils.ts           (direction tables, lane origins)
- src/app/components/game/phaser/PhaserGame.tsx  (TrafficLightManager)
- src/app/components/game/phaser/TrafficManager.ts (vehicle manager)
- src/unnamed/part_002                           (MainScene.update frame ordering)

Conventions:
- TypeScript numbers are modelled as ℚ (positions, timers, speeds) or
  Int/Nat (grid indices); Math.floor is Int.floor.
- The grid `GridCell[][]` is modelled as a function `Nat → Nat → Option GridCell`
  (row y, column x; `grid[y]?.[x]` with a negative or out-of-range index is
  `undefined`, i.e. `none`).
- JS `Set<string>` of pedestrian ids is modelled as a duplicate-free list of
  numeric ids (insertion order preserved; ids are opaque in the source).
- `Math.random()` draws are passed in explicitly as oracle parameters in [0,1).
- Random ids (`generateId`) are passed in / derived from indices; no claim
  depends on id values.
-/

set_option maxRecDepth 4000000
set_option maxHeartbeats 16000000

/- Rational arithmetic must evaluate (concrete states, witnesses and
counterexamples are computed on ℚ); Batteries marks these operations
irreducible for elaboration performance, which only blocks `decide`. -/
attribute [local semireducible] Rat.add Rat.sub Rat.mul Rat.inv

/-! ## types.ts: enums, cells, constants -/

inductive Direction where
  | up
  | down
  | left
  | right
deriving DecidableEq, Repr

inductive TileType where
  | grass
  | sidewalk
  | asphalt
  | roadLane
  | roadTurn
  | tile
  | snow
  | cobblestone
  | building
deriving DecidableEq, Repr

/-- The cell attributes read by the simulation core (other fields of
`GridCell` in types.ts are never consulted by the embedded functions). -/
structure GridCell where
  type : TileType
  isOrigin : Bool := false
  originX : Option Int := none
  originY : Option Int := none
  laneDirection : Option Direction := none
deriving DecidableEq, Repr

/-- `GridCell[][]`, abstracted as a partial function from (x, y) subtile
coordinates (a JS array lookup `grid[y]?.[x]` out of range is `undefined`). -/
def Grid : Type := Nat → Nat → Option GridCell

/-- `grid[y]?.[x]` for possibly-negative Int indices. -/
def cellAt (g : Grid) (x y : Int) : Option GridCell :=
  if 0 ≤ x ∧ 0 ≤ y then g x.toNat y.toNat else none

def GRID_WIDTH : Nat := 192
def GRID_HEIGHT : Nat := 192
def ROAD_LANE_SIZE : Int := 2

def CAR_SPEED : ℚ := 1/20

/-! ## roadUtils.ts -/

/-- Direction vectors for movement (dx, dy). -/
def directionVectors : Direction → Int × Int
  | .up => (0, -1)
  | .down => (0, 1)
  | .left => (-1, 0)
  | .right => (1, 0)

def oppositeDirection : Direction → Direction
  | .up => .down
  | .down => .up
  | .left => .right
  | .right => .left

/-- Right turn: clockwise rotation. -/
def rightTurnDirection : Direction → Direction
  | .up => .right
  | .right => .down
  | .down => .left
  | .left => .up

/-- Left turn: counter-clockwise rotation. -/
def leftTurnDirection : Direction → Direction
  | .up => .left
  | .right => .up
  | .down => .right
  | .left => .down

def isRoadTileType (t : TileType) : Bool :=
  t = TileType.roadLane ∨ t = TileType.roadTurn

/-- `Math.floor(v / ROAD_LANE_SIZE) * ROAD_LANE_SIZE` for one coordinate. -/
def laneOriginCoord (v : ℚ) : Int := 2 * ⌊v / 2⌋

/-- Get the road lane origin (top-left of 2x2 block) for any position. -/
def getRoadLaneOrigin (x y : ℚ) : Int × Int := (laneOriginCoord x, laneOriginCoord y)

/-! ## TrafficLightManager (PhaserGame.tsx): phases and timing -/

inductive TrafficPhase where
  | nsGreen
  | nsYellow
  | allRed1
  | ewGreen
  | ewYellow
  | allRed2
deriving DecidableEq, Repr

def GREEN_DURATION_MS : ℚ := 10000
def YELLOW_DURATION_MS : ℚ := 2000
def ALL_RED_DURATION_MS : ℚ := 3000
def MIN_CROSSING_TIME_MS : ℚ := 5000

def getNextPhase : TrafficPhase → TrafficPhase
  | .nsGreen => .nsYellow
  | .nsYellow => .allRed1
  | .allRed1 => .ewGreen
  | .ewGreen => .ewYellow
  | .ewYellow => .allRed2
  | .allRed2 => .nsGreen

def getPhaseDuration : TrafficPhase → ℚ
  | .nsGreen => GREEN_DURATION_MS
  | .ewGreen => GREEN_DURATION_MS
  | .nsYellow => YELLOW_DURATION_MS
  | .ewYellow => YELLOW_DURATION_MS
  | .allRed1 => ALL_RED_DURATION_MS
  | .allRed2 => ALL_RED_DURATION_MS

/-- Crosswalk zone at an intersection approach. `pedestrianIds` models the
JS `Set<string>` as a list (insertion order, no duplicates introduced). -/
structure Crosswalk where
  minX : Int
  maxX : Int
  minY : Int
  maxY : Int
  approachDirection : Direction
  pedestrianIds : List Nat
deriving DecidableEq, Repr

structure Intersection where
  id : Nat
  centerX : ℚ
  centerY : ℚ
  tiles : List (Int × Int)
  phase : TrafficPhase
  timer : ℚ
  hasNS : Bool
  hasEW : Bool
  crosswalks : List Crosswalk
deriving DecidableEq, Repr

/-- One intersection's share of `TrafficLightManager.update(deltaMs)`:
decrement the timer; on reaching ≤ 0 advance the phase and reset the timer
to the new phase's duration. -/
def intersectionTick (deltaMs : ℚ) (i : Intersection) : Intersection :=
  let t := i.timer - deltaMs
  if t ≤ 0 then
    { i with phase := getNextPhase i.phase,
             timer := getPhaseDuration (getNextPhase i.phase) }
  else
    { i with timer := t }

/-- `TrafficLightManager.update(deltaMs)` over all intersections. -/
def tlUpdate (deltaMs : ℚ) (is : List Intersection) : List Intersection :=
  is.map (intersectionTick deltaMs)

/-- Iterated `update` calls, one per list entry. -/
def tlUpdateSeq (deltas : List ℚ) (is : List Intersection) : List Intersection :=
  deltas.foldl (fun s d => tlUpdate d s) is

/-- `TrafficLightManager.canCrossAtCrosswalk(intersection, crosswalk)`. -/
def canCrossAtCrosswalk (i : Intersection) (cw : Crosswalk) : Bool :=
  if i.phase = .nsYellow ∨ i.phase = .ewYellow ∨
     i.phase = .allRed1 ∨ i.phase = .allRed2 then
    false
  else if i.timer < MIN_CROSSING_TIME_MS then
    false
  else
    let isNSCrosswalk : Bool :=
      cw.approachDirection = Direction.up ∨ cw.approachDirection = Direction.down
    if i.phase = .nsGreen then
      !isNSCrosswalk
    else if i.phase = .ewGreen then
      isNSCrosswalk
    else
      false

/-! ## TrafficLightManager: intersection detection -/

/-- A RoadTurn lane-block origin found by the detection scan. -/
structure TurnTile where
  x : Int
  y : Int
  dir : Direction
deriving DecidableEq, Repr

def tilePos (t : TurnTile) : Int × Int := (t.x, t.y)

/-- One cell of the RoadTurn-origin scan. -/
def turnProbe (g : Grid) (x y : Nat) : List TurnTile :=
  match g x y with
  | some c =>
    match c.laneDirection with
    | some d => if c.type = TileType.roadTurn ∧ c.isOrigin then [⟨x, y, d⟩] else []
    | none => []
  | none => []

def turnScanRow (g : Grid) (y : Nat) : Nat → List TurnTile
  | 0 => []
  | n + 1 => turnScanRow g y n ++ turnProbe g n y

/-- Row-major scan (`for y ... for x ...`) collecting all RoadTurn origins
with a lane direction. -/
def turnTileScan (g : Grid) : Nat → List TurnTile
  | 0 => []
  | n + 1 => turnTileScan g n ++ turnScanRow g n GRID_WIDTH

/-- The adjacency test used by the BFS grouping (`touching || closeEnough`
with ROAD_LANE_SIZE = 2). -/
def tilesConnected (a b : TurnTile) : Bool :=
  let dx := (b.x - a.x).natAbs
  let dy := (b.y - a.y).natAbs
  ((dx ≤ 2 ∧ dy ≤ 6) ∨ (dy ≤ 2 ∧ dx ≤ 6)) ∨ (dx ≤ 6 ∧ dy ≤ 6)

/-- BFS inner loop: pop the queue head, enqueue every not-yet-visited turn
tile connected to it (scan order), repeat.  Fuel bounds the number of pops;
`all.length + 1` suffices since each enqueued tile is marked visited. -/
def bfsCollect (all : List TurnTile) :
    List TurnTile → List (Int × Int) → List TurnTile → Nat →
    List TurnTile × List (Int × Int)
  | [], visited, acc, _ => (acc, visited)
  | _ :: _, visited, acc, 0 => (acc, visited)
  | cur :: rest, visited, acc, fuel + 1 =>
    let newOnes := all.filter (fun o => tilePos o ∉ visited ∧ tilesConnected cur o)
    bfsCollect all (rest ++ newOnes) (visited ++ newOnes.map tilePos) (acc ++ [cur]) fuel

/-- Outer grouping loop over the scan order. -/
def groupLoop (all : List TurnTile) :
    List TurnTile → List (Int × Int) → List (List TurnTile)
  | [], _ => []
  | t :: ts, visited =>
    if tilePos t ∈ visited then
      groupLoop all ts visited
    else
      let r := bfsCollect all [t] (visited ++ [tilePos t]) [] (all.length + 1)
      r.1 :: groupLoop all ts r.2

/-- Group all RoadTurn origins of the grid into BFS clusters. -/
def computeGroups (g : Grid) : List (List TurnTile) :=
  let all := turnTileScan g GRID_HEIGHT
  groupLoop all all []

def hasNSDir (tiles : List TurnTile) : Bool :=
  tiles.any fun t => t.dir = Direction.up ∨ t.dir = Direction.down

def hasEWDir (tiles : List TurnTile) : Bool :=
  tiles.any fun t => t.dir = Direction.left ∨ t.dir = Direction.right

/-- Minimum of a list of ints (the source applies Math.min to a nonempty
group; the default is never used on BFS output). -/
def minList : List Int → Int
  | [] => 0
  | a :: as => as.foldl min a

def maxList : List Int → Int
  | [] => 0
  | a :: as => as.foldl max a

/-- Half-open integer range [a, b). -/
def intRange (a b : Int) : List Int :=
  (List.range (b - a).toNat).map fun k => a + k

/-- `hasRoadInArea` helper of countRoadApproaches: any RoadLane cell in the
rectangle [startX, endX) × [startY, endY). -/
def hasRoadInArea (g : Grid) (startX endX startY endY : Int) : Bool :=
  (intRange startY endY).any fun y =>
    (intRange startX endX).any fun x =>
      match cellAt g x y with
      | some c => c.type = TileType.roadLane
      | none => false

/-- `TrafficLightManager.countRoadApproaches`: scan 2 lane-widths out on each
cardinal side of the cluster's bounding box for any RoadLane tile. -/
def countRoadApproaches (g : Grid) (tiles : List TurnTile) : Nat :=
  let minX := minList (tiles.map (·.x))
  let maxX := maxList (tiles.map (·.x)) + 2
  let minY := minList (tiles.map (·.y))
  let maxY := maxList (tiles.map (·.y)) + 2
  let searchDepth : Int := 4
  (if hasRoadInArea g (minX - 2) (maxX + 2) (minY - searchDepth) minY then 1 else 0) +
  (if hasRoadInArea g (minX - 2) (maxX + 2) maxY (maxY + searchDepth) then 1 else 0) +
  (if hasRoadInArea g (minX - searchDepth) minX (minY - 2) (maxY + 2) then 1 else 0) +
  (if hasRoadInArea g maxX (maxX + searchDepth) (minY - 2) (maxY + 2) then 1 else 0)

/-- The condition under which a BFS cluster is turned into a signaled
intersection (`hasNS && hasEW && intersectionTiles.length >= 2 && approachCount >= 3`). -/
def signalCondition (g : Grid) (tiles : List TurnTile) : Bool :=
  hasNSDir tiles ∧ hasEWDir tiles ∧ 2 ≤ tiles.length ∧ 3 ≤ countRoadApproaches g tiles

/-- The four crosswalk bands around a bounding box, in source push order
(north, south, west, east), each 2 subtiles deep, outside the box. -/
def mkCrosswalks (minTileX maxTileX minTileY maxTileY : Int) : List Crosswalk :=
  [ { minX := minTileX, maxX := maxTileX - 1,
      minY := minTileY - 2, maxY := minTileY - 1,
      approachDirection := .down, pedestrianIds := [] },
    { minX := minTileX, maxX := maxTileX - 1,
      minY := maxTileY, maxY := maxTileY + 1,
      approachDirection := .up, pedestrianIds := [] },
    { minX := minTileX - 2, maxX := minTileX - 1,
      minY := minTileY, maxY := maxTileY - 1,
      approachDirection := .right, pedestrianIds := [] },
    { minX := maxTileX, maxX := maxTileX + 1,
      minY := minTileY, maxY := maxTileY - 1,
      approachDirection := .left, pedestrianIds := [] } ]

/-- Build the Intersection record for a qualifying cluster (fresh phase
NS_GREEN, full green timer).  The source uses a random string id; here the
cluster index stands in for it (no claim depends on id values). -/
def mkIntersection (idx : Nat) (tiles : List TurnTile) : Intersection :=
  let len : ℚ := tiles.length
  let centerX := (tiles.foldl (fun s t => s + (t.x : ℚ) + 1) 0) / len
  let centerY := (tiles.foldl (fun s t => s + (t.y : ℚ) + 1) 0) / len
  let minTileX := minList (tiles.map (·.x))
  let maxTileX := maxList (tiles.map (·.x)) + 2
  let minTileY := minList (tiles.map (·.y))
  let maxTileY := maxList (tiles.map (·.y)) + 2
  { id := idx,
    centerX := centerX,
    centerY := centerY,
    tiles := tiles.map tilePos,
    phase := .nsGreen,
    timer := GREEN_DURATION_MS,
    hasNS := hasNSDir tiles,
    hasEW := hasEWDir tiles,
    crosswalks := mkCrosswalks minTileX maxTileX minTileY maxTileY }

/-- `TrafficLightManager.detectIntersections`: group turn tiles, keep the
clusters satisfying `signalCondition`, build intersections in creation order
(the JS Map preserves insertion order). -/
def detectIntersections (g : Grid) : List Intersection :=
  (computeGroups g).enum.filterMap fun p =>
    if signalCondition g p.2 then some (mkIntersection p.1 p.2) else none

/-- The Traffic Light Manager's mutable state. -/
structure TLState where
  grid : Grid
  intersections : List Intersection

/-- `TrafficLightManager.setGrid`: store the grid and recompute all
intersections from scratch. -/
def setGrid (_s : TLState) (g : Grid) : TLState :=
  { grid := g, intersections := detectIntersections g }

def getIntersections (s : TLState) : List Intersection := s.intersections

/-! ## TrafficLightManager: crosswalk queries -/

/-- Does this crosswalk's band contain tile (tx, ty)? -/
def crosswalkContains (cw : Crosswalk) (tx ty : Int) : Bool :=
  cw.minX ≤ tx ∧ tx ≤ cw.maxX ∧ cw.minY ≤ ty ∧ ty ≤ cw.maxY

/-- First crosswalk of one intersection containing the tile. -/
def findCrosswalk (cws : List Crosswalk) (tx ty : Int) : Option Crosswalk :=
  cws.find? fun cw => crosswalkContains cw tx ty

/-- Scan intersections in creation order for the first crosswalk containing
the tile. -/
def findCrosswalkPair (tx ty : Int) : List Intersection → Option (Intersection × Crosswalk)
  | [] => none
  | i :: rest =>
    match findCrosswalk i.crosswalks tx ty with
    | some cw => some (i, cw)
    | none => findCrosswalkPair tx ty rest

/-- `TrafficLightManager.getCrosswalkAt(x, y)`: floor the position and return
the first (intersection, crosswalk) pair, scanning intersections in creation
order and each intersection's crosswalks in push order. -/
def getCrosswalkAt (is : List Intersection) (x y : ℚ) :
    Option (Intersection × Crosswalk) :=
  findCrosswalkPair ⌊x⌋ ⌊y⌋ is

/-- Set-insert a pedestrian id (JS `Set.add`: no-op when present). -/
def pedAdd (l : List Nat) (pid : Nat) : List Nat :=
  if pid ∈ l then l else l ++ [pid]

/-- Set-delete a pedestrian id (JS `Set.delete`). -/
def pedDelete (l : List Nat) (pid : Nat) : List Nat :=
  l.filter fun q => q ≠ pid

/-- Replace the first crosswalk of the list containing the tile by `f` of
itself (`none` when no crosswalk contains it). -/
def updateCwList (f : Crosswalk → Crosswalk) (tx ty : Int) :
    List Crosswalk → Option (List Crosswalk)
  | [] => none
  | cw :: cws =>
    if crosswalkContains cw tx ty then
      some (f cw :: cws)
    else
      match updateCwList f tx ty cws with
      | some cws' => some (cw :: cws')
      | none => none

/-- Replace the first crosswalk (in getCrosswalkAt scan order) containing the
tile by `f` of itself, leaving everything else unchanged.  This captures the
in-place mutation of the object returned by `getCrosswalkAt`. -/
def updateFirstCrosswalk (f : Crosswalk → Crosswalk) (tx ty : Int) :
    List Intersection → List Intersection
  | [] => []
  | i :: rest =>
    match updateCwList f tx ty i.crosswalks with
    | some cws' => { i with crosswalks := cws' } :: rest
    | none => i :: updateFirstCrosswalk f tx ty rest

/-- `TrafficLightManager.enterCrosswalk(pedestrianId, x, y)`. -/
def enterCrosswalk (is : List Intersection) (pid : Nat) (x y : ℚ) :
    List Intersection :=
  updateFirstCrosswalk (fun cw => { cw with pedestrianIds := pedAdd cw.pedestrianIds pid })
    ⌊x⌋ ⌊y⌋ is

/-- `TrafficLightManager.leaveCrosswalk(pedestrianId, x, y)`. -/
def leaveCrosswalk (is : List Intersection) (pid : Nat) (x y : ℚ) :
    List Intersection :=
  updateFirstCrosswalk (fun cw => { cw with pedestrianIds := pedDelete cw.pedestrianIds pid })
    ⌊x⌋ ⌊y⌋ is

/-- `TrafficLightManager.removeFromAllCrosswalks(pedestrianId)`. -/
def removeFromAllCrosswalks (is : List Intersection) (pid : Nat) :
    List Intersection :=
  is.map fun i =>
    { i with crosswalks := i.crosswalks.map fun cw =>
        { cw with pedestrianIds := pedDelete cw.pedestrianIds pid } }

/-- `TrafficLightManager.clearAllPedestrianRegistrations()`. -/
def clearAllPedestrianRegistrations (is : List Intersection) : List Intersection :=
  is.map fun i =>
    { i with crosswalks := i.crosswalks.map fun cw => { cw with pedestrianIds := [] } }

/-- `TrafficLightManager.getIntersectionAt(x, y)`: resolve to the lane-block
origin and look it up among intersection tiles (models the
`tileToIntersection` map, which is keyed by member tile origins). -/
def getIntersectionAt (is : List Intersection) (x y : ℚ) : Option Intersection :=
  let o := getRoadLaneOrigin x y
  is.find? fun i => (o.1, o.2) ∈ i.tiles

/-- `TrafficLightManager.registerPedestrianAtIntersection`: add the id to all
crosswalks of the intersection containing the tile. -/
def registerPedestrianAtIntersection (is : List Intersection) (pid : Nat)
    (tileX tileY : ℚ) : List Intersection :=
  match getIntersectionAt is tileX tileY with
  | none => is
  | some target =>
    is.map fun i =>
      if i.id = target.id then
        { i with crosswalks := i.crosswalks.map fun cw =>
            { cw with pedestrianIds := pedAdd cw.pedestrianIds pid } }
      else i

/-- `TrafficLightManager.canWalkThroughIntersection(x, y)`. -/
def canWalkThroughIntersection (is : List Intersection) (x y : ℚ) : Bool :=
  match getIntersectionAt is x y with
  | none => false
  | some i => i.phase = TrafficPhase.nsGreen ∨ i.phase = TrafficPhase.ewGreen

/-- One probe of `canCarEnterCrosswalkZone`: does the position resolve (via
getCrosswalkAt) to a crosswalk with at least one registered pedestrian? -/
def crosswalkProbeBlocked (is : List Intersection) (px py : ℚ) : Bool :=
  match getCrosswalkAt is px py with
  | some r => r.2.pedestrianIds.length > 0
  | none => false

/-- `TrafficLightManager.canCarEnterCrosswalkZone(carX, carY, direction)`:
probe 1–3 subtiles ahead (the source's `for i = 1..3` loop with early
return, unrolled); refuse if a probed position resolves to a crosswalk with
a registered pedestrian. -/
def canCarEnterCrosswalkZone (is : List Intersection) (carX carY : ℚ)
    (d : Direction) : Bool :=
  let vec := directionVectors d
  if crosswalkProbeBlocked is (carX + (vec.1 : ℚ) * 1) (carY + (vec.2 : ℚ) * 1) then false
  else if crosswalkProbeBlocked is (carX + (vec.1 : ℚ) * 2) (carY + (vec.2 : ℚ) * 2) then false
  else if crosswalkProbeBlocked is (carX + (vec.1 : ℚ) * 3) (carY + (vec.2 : ℚ) * 3) then false
  else true

/-! ## TrafficManager.ts: vehicles -/

inductive CarType where
  | jeep
  | taxi
  | waymo
  | robotaxi
  | zoox
deriving DecidableEq, Repr

/-- `TurnType` = "left" | "right" | "straight" | "none"; the last is renamed
`noTurn` to avoid clashing with `Option.none`. -/
inductive TurnType where
  | left
  | right
  | straight
  | noTurn
deriving DecidableEq, Repr

/-- The `Car` record (types.ts).  `lastTurn` is optional in the source
(undefined until first set); `inIntersection` is declared but never used. -/
structure Car where
  id : Nat
  x : ℚ
  y : ℚ
  direction : Direction
  speed : ℚ
  waiting : Nat
  carType : CarType
  lastTurn : Option TurnType := none
deriving DecidableEq, Repr

/-- Result of `TrafficManager.getLaneAt` / `getNextLane`. -/
structure LaneInfo where
  originX : Int
  originY : Int
  direction : Direction
  type : TileType
deriving DecidableEq, Repr

/-- Values of the `Math.random()` draws made inside one `updateSingleCar`
call: `r1`, `r2` are the first and second draw of `pickNextDirection` (or of
`relocateCarToRoad`, which makes one draw, `r1`); `r3`, `r4` are the two
draws of the turn roulette.  The branches are mutually exclusive in the
source, so naming the draws per site loses nothing. -/
structure Oracle where
  r1 : ℚ
  r2 : ℚ
  r3 : ℚ
  r4 : ℚ

/-- The `Math.random()` draws of one `spawnCar` call. -/
structure SpawnOracle where
  rLane : ℚ
  rType : ℚ
  rSpeed : ℚ

/-- `list[Math.floor(r * list.length)]`; the default (the head) is only
reachable when r lies outside [0, 1), which `Math.random()` never produces. -/
def listPick {α : Type} (a : α) (as : List α) (r : ℚ) : α :=
  (a :: as).getD (⌊r * ((a :: as).length : ℚ)⌋).toNat a

/-- `TrafficManager.getLaneAt(x, y)`. -/
def getLaneAt (g : Grid) (x y : ℚ) : Option LaneInfo :=
  let gx := ⌊x⌋
  let gy := ⌊y⌋
  if gx < 0 ∨ (GRID_WIDTH : Int) ≤ gx ∨ gy < 0 ∨ (GRID_HEIGHT : Int) ≤ gy then none
  else
    match cellAt g gx gy with
    | none => none
    | some cell =>
      if ¬ isRoadTileType cell.type then none
      else
        let originX := cell.originX.getD (getRoadLaneOrigin (gx : ℚ) (gy : ℚ)).1
        let originY := cell.originY.getD (getRoadLaneOrigin (gx : ℚ) (gy : ℚ)).2
        match cellAt g originX originY with
        | none => none
        | some originCell =>
          match originCell.laneDirection with
          | none => none
          | some d => some ⟨originX, originY, d, originCell.type⟩

/-- `TrafficManager.getNextLane(fromOriginX, fromOriginY, dir)`: probe one
full lane block (2 subtiles) ahead. -/
def getNextLane (g : Grid) (fromOriginX fromOriginY : Int) (dir : Direction) :
    Option LaneInfo :=
  let vec := directionVectors dir
  let nextOriginX := fromOriginX + vec.1 * 2
  let nextOriginY := fromOriginY + vec.2 * 2
  if nextOriginX < 0 ∨ (GRID_WIDTH : Int) ≤ nextOriginX ∨
     nextOriginY < 0 ∨ (GRID_HEIGHT : Int) ≤ nextOriginY then none
  else
    match cellAt g nextOriginX nextOriginY with
    | none => none
    | some nextCell =>
      if ¬ (isRoadTileType nextCell.type ∧ nextCell.isOrigin) then none
      else
        match nextCell.laneDirection with
        | none => none
        | some d => some ⟨nextOriginX, nextOriginY, d, nextCell.type⟩

/-- `TrafficManager.canEnterLane`: forbid entering a lane head-on. -/
def canEnterLane (nextLane : LaneInfo) (enteringFrom : Direction) : Bool :=
  nextLane.direction ≠ oppositeDirection enteringFrom

/-- `TrafficManager.canGoDirection`. -/
def canGoDirection (g : Grid) (fromOriginX fromOriginY : Int) (dir : Direction) : Bool :=
  match getNextLane g fromOriginX fromOriginY dir with
  | none => false
  | some nextLane => canEnterLane nextLane dir

/-- A drivable lane-block origin with a direction, as collected by the spawn
and relocation scans. -/
structure LaneOrigin where
  x : Int
  y : Int
  dir : Direction
deriving DecidableEq, Repr

def laneProbe (g : Grid) (x y : Nat) : List LaneOrigin :=
  match g x y with
  | some c =>
    match c.laneDirection with
    | some d => if isRoadTileType c.type ∧ c.isOrigin then [⟨x, y, d⟩] else []
    | none => []
  | none => []

def laneScanRow (g : Grid) (y : Nat) : Nat → List LaneOrigin
  | 0 => []
  | n + 1 => laneScanRow g y n ++ laneProbe g n y

/-- Row-major scan collecting all drivable lane-block origins that carry a
lane direction (shared by `spawnCar` and `relocateCarToRoad`). -/
def laneOriginScan (g : Grid) : Nat → List LaneOrigin
  | 0 => []
  | n + 1 => laneOriginScan g n ++ laneScanRow g n GRID_WIDTH

def SPAWN_CAR_TYPES : List CarType := [.jeep, .taxi, .waymo, .robotaxi, .zoox]

/-- `TrafficManager.spawnCar()`.  Returns the success flag together with the
updated car list; `freshId` stands in for the random string id. -/
def spawnCar (g : Grid) (o : SpawnOracle) (freshId : Nat) (cars : List Car) :
    Bool × List Car :=
  match laneOriginScan g GRID_HEIGHT with
  | [] => (false, cars)
  | l :: ls =>
    let lane := listPick l ls o.rLane
    let centerX : ℚ := (lane.x : ℚ) + 1
    let centerY : ℚ := (lane.y : ℚ) + 1
    if cars.any fun car =>
        (car.x - centerX) ^ 2 + (car.y - centerY) ^ 2 < 9/4 then
      (false, cars)
    else
      let carType := listPick CarType.jeep [.taxi, .waymo, .robotaxi, .zoox] o.rType
      (true, cars ++ [{
        id := freshId,
        x := centerX,
        y := centerY,
        direction := lane.dir,
        speed := CAR_SPEED + (o.rSpeed - 1/2) * (1/100),
        waiting := 0,
        carType := carType }])

/-- `TrafficManager.isBlockedByOtherCar` (`dist < 1.0` stated on squares). -/
def isBlockedByOtherCar (cars : List Car) (car : Car) : Bool :=
  let vec := directionVectors car.direction
  let aheadX := car.x + (vec.1 : ℚ) * (3/2)
  let aheadY := car.y + (vec.2 : ℚ) * (3/2)
  cars.any fun other =>
    other.id ≠ car.id ∧
    (other.x - aheadX) ^ 2 + (other.y - aheadY) ^ 2 < 1 ∧
    (other.x - car.x) * (vec.1 : ℚ) + (other.y - car.y) * (vec.2 : ℚ) > 0

/-- U-turn movement direction toward the parallel opposite lane. -/
def uTurnMoveDir : Direction → Direction
  | .right => .up
  | .left => .down
  | .down => .right
  | .up => .left

/-- `TrafficManager.pickNextDirection(car, currentLane)`. -/
def pickNextDirection (g : Grid) (o : Oracle) (car : Car) (lane : LaneInfo) :
    Direction × TurnType :=
  let laneDir := lane.direction
  let rightDir := rightTurnDirection laneDir
  let leftDir := leftTurnDirection laneDir
  let straightOpts : List (Direction × TurnType) :=
    if canGoDirection g lane.originX lane.originY laneDir then
      [(laneDir, .straight)]
    else []
  let alreadyTurned := car.lastTurn = some TurnType.left ∨ car.lastTurn = some TurnType.right
  let turnOpts :=
    if lane.type = TileType.roadTurn ∧ ¬ alreadyTurned then
      straightOpts ++
      (if canGoDirection g lane.originX lane.originY rightDir then
        [(rightDir, TurnType.right)] else []) ++
      (if canGoDirection g lane.originX lane.originY leftDir then
        [(leftDir, TurnType.left)] else [])
    else straightOpts
  let possibleOptions :=
    if lane.type = TileType.roadTurn ∧ turnOpts.length = 0 then
      (if canGoDirection g lane.originX lane.originY (uTurnMoveDir laneDir) then
        [(uTurnMoveDir laneDir, TurnType.noTurn)] else [])
    else turnOpts
  match possibleOptions with
  | [] => (laneDir, .noTurn)
  | [single] => single
  | o1 :: o2 :: rest =>
    match (o1 :: o2 :: rest).find? fun p => p.2 = TurnType.straight with
    | some straightOption =>
      if o.r1 < 7/10 then straightOption else listPick o1 (o2 :: rest) o.r2
    | none => listPick o1 (o2 :: rest) o.r1

/-- `TrafficManager.relocateCarToRoad`. -/
def relocateCarToRoad (g : Grid) (o : Oracle) (car : Car) : Car :=
  match laneOriginScan g GRID_HEIGHT with
  | [] => car
  | l :: ls =>
    let lane := listPick l ls o.r1
    { car with
      x := (lane.x : ℚ) + 1,
      y := (lane.y : ℚ) + 1,
      direction := lane.dir,
      waiting := 0 }

/-- Shared tail of `updateSingleCar`: move by `speed` from (startX, startY)
in `newDirection`; if the destination is off every lane, snap back to the
current lane center and stop. -/
def carMoveTail (g : Grid) (laneCenterX laneCenterY : ℚ) (newWaiting : Nat)
    (startX startY : ℚ) (newDirection : Direction) (car : Car) : Car :=
  let moveVec := directionVectors newDirection
  let nextX := startX + (moveVec.1 : ℚ) * car.speed
  let nextY := startY + (moveVec.2 : ℚ) * car.speed
  match getLaneAt g nextX nextY with
  | none =>
    { car with x := laneCenterX, y := laneCenterY,
               direction := newDirection, waiting := newWaiting }
  | some _ =>
    { car with x := nextX, y := nextY,
               direction := newDirection, waiting := newWaiting }

/-- `TrafficManager.updateSingleCar(car)`. -/
def updateSingleCar (g : Grid) (allCars : List Car) (o : Oracle) (car : Car) : Car :=
  match getLaneAt g car.x car.y with
  | none => relocateCarToRoad g o car
  | some currentLane =>
    if isBlockedByOtherCar allCars car then
      { car with waiting := min (car.waiting + 1) 120 }
    else
      let newWaiting := if 0 < car.waiting then 0 else car.waiting
      let laneCenterX : ℚ := (currentLane.originX : ℚ) + 1
      let laneCenterY : ℚ := (currentLane.originY : ℚ) + 1
      let inLaneX := car.x - (currentLane.originX : ℚ)
      let inLaneY := car.y - (currentLane.originY : ℚ)
      let threshold := car.speed * 2
      if |inLaneX - 1| < threshold ∧ |inLaneY - 1| < threshold then
        let nextLane := getNextLane g currentLane.originX currentLane.originY car.direction
        let straightOk := match nextLane with
          | some nl => canEnterLane nl car.direction
          | none => false
        if !straightOk then
          -- cannot continue straight: turn or stop
          let pick := pickNextDirection g o car currentLane
          let altLane := getNextLane g currentLane.originX currentLane.originY pick.1
          let altOk := match altLane with
            | some al => canEnterLane al pick.1
            | none => false
          if altOk then
            carMoveTail g laneCenterX laneCenterY newWaiting laneCenterX laneCenterY pick.1
              { car with lastTurn := some pick.2 }
          else
            { car with x := laneCenterX, y := laneCenterY, waiting := newWaiting }
        else if currentLane.type = TileType.roadTurn then
          let alreadyTurned := car.lastTurn = some TurnType.left ∨ car.lastTurn = some TurnType.right
          if ¬ alreadyTurned then
            let rightDir := rightTurnDirection car.direction
            let leftDir := leftTurnDirection car.direction
            let turnOptions : List (Direction × TurnType) :=
              (if canGoDirection g currentLane.originX currentLane.originY rightDir then
                [(rightDir, TurnType.right)] else []) ++
              (if canGoDirection g currentLane.originX currentLane.originY leftDir then
                [(leftDir, TurnType.left)] else [])
            if 0 < turnOptions.length ∧ o.r3 < 3/10 then
              let chosen := match turnOptions with
                | [] => (car.direction, TurnType.noTurn)
                | c :: cs => listPick c cs o.r4
              carMoveTail g laneCenterX laneCenterY newWaiting laneCenterX laneCenterY chosen.1
                { car with lastTurn := some chosen.2 }
            else
              carMoveTail g laneCenterX laneCenterY newWaiting car.x car.y car.direction car
          else
            carMoveTail g laneCenterX laneCenterY newWaiting car.x car.y car.direction car
        else
          let car1 :=
            if car.lastTurn ≠ some TurnType.straight ∧ car.lastTurn ≠ some TurnType.noTurn then
              { car with lastTurn := some TurnType.straight }
            else car
          carMoveTail g laneCenterX laneCenterY newWaiting car1.x car1.y car1.direction car1
      else
        carMoveTail g laneCenterX laneCenterY newWaiting car.x car.y car.direction car

/-- `TrafficManager.update()`: in-place sequential update of the car array
(each car's blocked test sees already-updated predecessors). -/
def updateCarsLoop (g : Grid) (oF : Nat → Oracle) : Nat → Nat → List Car → List Car
  | _, 0, cars => cars
  | i, fuel + 1, cars =>
    match cars.get? i with
    | none => cars
    | some c => updateCarsLoop g oF (i + 1) fuel (cars.set i (updateSingleCar g cars (oF i) c))

def trafficUpdate (g : Grid) (oF : Nat → Oracle) (cars : List Car) : List Car :=
  updateCarsLoop g oF 0 cars.length cars

/-! ## MainScene.update frame composition (src/unnamed/part_002) -/

/-- Modelled from the spec: CitizenManager.ts is not among the provided
source files (only its declaration site and callers are).  Spec §4.4: a
pedestrian "should not begin crossing through an intersection body unless
canWalkThroughIntersection is true at that moment"; the manager consults the
TrafficLightManager reference handed to it, at its state at call time. -/
structure Character where
  id : Nat
  x : ℚ
  y : ℚ
  wantsToCross : Bool
  crossing : Bool
deriving DecidableEq, Repr

/-- Modelled from the spec: the pedestrian update's begin-crossing decision,
made against the traffic-light state visible when CitizenManager.update runs. -/
def citizenUpdate (is : List Intersection) (ps : List Character) : List Character :=
  ps.map fun p =>
    if p.wantsToCross ∧ ¬ p.crossing then
      { p with crossing := canWalkThroughIntersection is p.x p.y }
    else p

structure SceneState where
  grid : Grid
  intersections : List Intersection
  cars : List Car
  characters : List Character

/-- `MainScene.update(_time, delta)` (src/unnamed/part_002 lines 3217–3263),
simulation calls only, in source order:
```
this.updateCharacters();                 // citizenManager.update()
this.trafficLightManager.update(delta);
this.trafficManager.update();
```
Rendering, camera and stats calls are omitted as out of scope. -/
def mainSceneUpdate (delta : ℚ) (oF : Nat → Oracle) (s : SceneState) : SceneState :=
  let characters1 := citizenUpdate s.intersections s.characters
  let intersections1 := tlUpdate delta s.intersections
  let cars1 := trafficUpdate s.grid oF s.cars
  { s with characters := characters1,
           intersections := intersections1,
           cars := cars1 }

/-! ## Predicates used to state the claims -/

/-- Position probed `i` subtiles ahead of the car in travel direction. -/
def probeAhead (carX carY : ℚ) (d : Direction) (i : Int) : ℚ × ℚ :=
  (carX + ((directionVectors d).1 : ℚ) * i, carY + ((directionVectors d).2 : ℚ) * i)

/-- Some crosswalk of some intersection of the state contains the floored
position and has a registered pedestrian (the claim's reading). -/
def someNonemptyCrosswalkAt (is : List Intersection) (x y : ℚ) : Prop :=
  ∃ i ∈ is, ∃ cw ∈ i.crosswalks,
    crosswalkContains cw ⌊x⌋ ⌊y⌋ = true ∧ cw.pedestrianIds ≠ []

/-- The crosswalk the position actually resolves to via `getCrosswalkAt`
(first in creation/push order) has a registered pedestrian. -/
def resolvesNonempty (is : List Intersection) (x y : ℚ) : Prop :=
  ∃ r, getCrosswalkAt is x y = some r ∧ r.2.pedestrianIds ≠ []

/-- The rectangular bands of two crosswalks share at least one subtile. -/
def bandsOverlap (c1 c2 : Crosswalk) : Bool :=
  max c1.minX c2.minX ≤ min c1.maxX c2.maxX ∧
  max c1.minY c2.minY ≤ min c1.maxY c2.maxY

/-- No subtile lies in two distinct crosswalk bands of the state. -/
def crosswalksDisjoint (is : List Intersection) : Prop :=
  ∀ i1 ∈ is, ∀ cw1 ∈ i1.crosswalks, ∀ i2 ∈ is, ∀ cw2 ∈ i2.crosswalks,
    bandsOverlap cw1 cw2 = true → i1 = i2 ∧ cw1 = cw2

/-- Replace every intersection's phase and timer (index-wise), leaving all
crosswalk data untouched; used to state light-phase independence. -/
def withSignals (is : List Intersection) (f : Nat → TrafficPhase × ℚ) :
    List Intersection :=
  is.enum.map fun p => { p.2 with phase := (f p.1).1, timer := (f p.1).2 }

/-- The crosswalk stored at intersection index `j`, crosswalk index `k`. -/
def crosswalkAtIdx (is : List Intersection) (j k : Nat) : Option Crosswalk :=
  match is.get? j with
  | some i => i.crosswalks.get? k
  | none => none

/-- NS-green fresh state, as produced for every new intersection. -/
def freshSignal (i : Intersection) : Bool :=
  i.phase = TrafficPhase.nsGreen ∧ i.timer = GREEN_DURATION_MS

/-! ## Invariant infrastructure for the no-head-on-entry claim -/

/-- Well-formed road data: every drivable cell's origin pointers agree with
the floor-derived lane origin (or are absent, in which case the code derives
exactly that value), origin flags only sit at origin-aligned cells, and the
block's origin cell exists, is flagged, has the same tile kind and carries a
lane direction.  This is the lane-block atomicity invariant of the grid
writer (spec §3/§8); the vehicle manager reads grids produced under it. -/
def WFGrid (g : Grid) : Prop :=
  ∀ x y : Int, ∀ c, cellAt g x y = some c → isRoadTileType c.type = true →
    c.originX.getD (laneOriginCoord (x : ℚ)) = laneOriginCoord (x : ℚ) ∧
    c.originY.getD (laneOriginCoord (y : ℚ)) = laneOriginCoord (y : ℚ) ∧
    (c.isOrigin = true → x = laneOriginCoord (x : ℚ) ∧ y = laneOriginCoord (y : ℚ)) ∧
    ∃ oc, cellAt g (laneOriginCoord (x : ℚ)) (laneOriginCoord (y : ℚ)) = some oc ∧
      oc.type = c.type ∧ oc.isOrigin = true ∧ oc.laneDirection.isSome = true

/-- An odd-integer coordinate (lane-center aligned transversally). -/
def oddCoord (q : ℚ) : Prop := ∃ k : Int, q = 2 * (k : ℚ) + 1

def isHorizontal : Direction → Bool
  | .left | .right => true
  | .up | .down => false

def dirPositive : Direction → Bool
  | .right | .down => true
  | .left | .up => false

/-- Origin coordinate of the lane block containing a continuous coordinate. -/
def blockCoord (q : ℚ) : Int := laneOriginCoord ((⌊q⌋ : ℚ))

/-- The coordinate perpendicular to the travel axis sits exactly on the lane
center line. -/
def Aligned (car : Car) : Prop :=
  if isHorizontal car.direction then oddCoord car.y else oddCoord car.x

/-- Raw in-block coordinate along the travel axis (0 ≤ w < 2 inside a block). -/
def wAlong (car : Car) : ℚ :=
  if isHorizontal car.direction then car.x - (blockCoord car.x : ℚ)
  else car.y - (blockCoord car.y : ℚ)

/-- Straight ahead from the car's current block is an enterable lane. -/
def straightFree (g : Grid) (car : Car) : Prop :=
  ∃ L, getLaneAt g car.x car.y = some L ∧
    ∃ nl, getNextLane g L.originX L.originY car.direction = some nl ∧
      canEnterLane nl car.direction = true

/-- Either the car has not yet passed its decision window (the lane-center
band of width 2·(2·speed)) in its travel direction, or continuing straight
has been checked enterable. -/
def Prog (g : Grid) (car : Car) : Prop :=
  (if dirPositive car.direction then wAlong car < 1 + 2 * car.speed
   else 1 - 2 * car.speed < wAlong car) ∨ straightFree g car

/-- Inductive invariant of a vehicle: sane speed, and — when on a road —
center alignment plus the decision-window property. -/
def InvCar (g : Grid) (car : Car) : Prop :=
  (0 < car.speed ∧ 3 * car.speed < 1) ∧
  (getLaneAt g car.x car.y = none ∨ (Aligned car ∧ Prog g car))

/-- One `updateSingleCar` step, with arbitrary co-existing cars and random
draws. -/
def CarStepRel (g : Grid) (c c' : Car) : Prop :=
  ∃ allCars o, c' = updateSingleCar g allCars o c

/-- A car as `spawnCar` just created it (the last element of the returned
list on success; the speed draw is a genuine `Math.random()` value). -/
def SpawnedCar (g : Grid) (car : Car) : Prop :=
  ∃ o fid cars res, 0 ≤ o.rSpeed ∧ o.rSpeed < 1 ∧
    spawnCar g o fid cars = (true, res) ∧ res.getLast? = some car

/-- Vehicle states reachable in the manager: spawned by `spawnCar`, then
stepped by `updateSingleCar` any number of times. -/
def ReachableCar (g : Grid) (car : Car) : Prop :=
  ∃ c0, SpawnedCar g c0 ∧ Relation.ReflTransGen (CarStepRel g) c0 car

/-! ## Concrete grids and states used by witnesses and counterexamples -/

def grassCell : GridCell := { type := TileType.grass }

/-- Does the 2×2 block with origin (ox, oy) contain subtile (x, y)? -/
def inBlock (ox oy x y : Nat) : Bool := ox ≤ x ∧ x < ox + 2 ∧ oy ≤ y ∧ y < oy + 2

/-- One member cell of a well-formed 2×2 lane block. -/
def blockCell (t : TileType) (d : Direction) (ox oy x y : Nat) : GridCell :=
  { type := t,
    isOrigin := decide (x = ox ∧ y = oy),
    originX := some (ox : Int),
    originY := some (oy : Int),
    laneDirection := some d }

/-- All grass in bounds: no drivable lane anywhere. -/
def emptyGrid : Grid := fun x y =>
  if x < GRID_WIDTH ∧ y < GRID_HEIGHT then some grassCell else none

/-- Two eastbound lane blocks side by side at (4,4) and (6,4). -/
def wGrid : Grid := fun x y =>
  if inBlock 4 4 x y then some (blockCell .roadLane .right 4 4 x y)
  else if inBlock 6 4 x y then some (blockCell .roadLane .right 6 4 x y)
  else if x < GRID_WIDTH ∧ y < GRID_HEIGHT then some grassCell
  else none

/-- Grid producing two signaled intersections whose crosswalk bands overlap:
a vertical chain of turn blocks A at column x = 4 (y = 4, 10, 16) and an
L-shaped chain B (origins (8,24), (14,24), (14,18), (14,12)), each dressed
with RoadLane blocks giving ≥ 3 road approaches.  A's east crosswalk band
(x ∈ [6,7], y ∈ [4,17]) overlaps B's west band (x ∈ [6,7], y ∈ [12,25]). -/
def cxGrid : Grid := fun x y =>
  if x < 18 ∧ y < 28 then
    if inBlock 4 4 x y then some (blockCell .roadTurn .up 4 4 x y)
    else if inBlock 4 10 x y then some (blockCell .roadTurn .right 4 10 x y)
    else if inBlock 4 16 x y then some (blockCell .roadTurn .up 4 16 x y)
    else if inBlock 8 24 x y then some (blockCell .roadTurn .right 8 24 x y)
    else if inBlock 14 24 x y then some (blockCell .roadTurn .up 14 24 x y)
    else if inBlock 14 18 x y then some (blockCell .roadTurn .up 14 18 x y)
    else if inBlock 14 12 x y then some (blockCell .roadTurn .up 14 12 x y)
    else if inBlock 4 0 x y then some (blockCell .roadLane .down 4 0 x y)
    else if inBlock 4 18 x y then some (blockCell .roadLane .down 4 18 x y)
    else if inBlock 0 10 x y then some (blockCell .roadLane .right 0 10 x y)
    else if inBlock 10 8 x y then some (blockCell .roadLane .down 10 8 x y)
    else if inBlock 16 14 x y then some (blockCell .roadLane .left 16 14 x y)
    else if inBlock 10 26 x y then some (blockCell .roadLane .down 10 26 x y)
    else some grassCell
  else if x < GRID_WIDTH ∧ y < GRID_HEIGHT then some grassCell
  else none

/-- A bare intersection with chosen phase and timer (crosswalk bands as the
detector would lay them around a single-block box at (0,0)). -/
def simpleIntersection (p : TrafficPhase) (t : ℚ) : Intersection :=
  { id := 0, centerX := 1, centerY := 1, tiles := [(0, 0)],
    phase := p, timer := t, hasNS := true, hasEW := true,
    crosswalks := mkCrosswalks 0 2 0 2 }

/-- Crosswalk on an NS approach (cars arrive heading down). -/
def cwNS : Crosswalk :=
  { minX := 0, maxX := 1, minY := -2, maxY := -1,
    approachDirection := .down, pedestrianIds := [] }

/-- Crosswalk on an EW approach (cars arrive heading right). -/
def cwEW : Crosswalk :=
  { minX := -2, maxX := -1, minY := 0, maxY := 1,
    approachDirection := .right, pedestrianIds := [] }

/-- Scene state for the frame-ordering counterexample: one intersection in
NS_GREEN with 10 ms left on the timer, one pedestrian on its tile wanting to
start crossing. -/
def orderingScene : SceneState :=
  { grid := emptyGrid,
    intersections := [{ id := 0, centerX := 5, centerY := 5, tiles := [(4, 4)],
                        phase := .nsGreen, timer := 10, hasNS := true, hasEW := true,
                        crosswalks := [] }],
    cars := [],
    characters := [{ id := 0, x := 9/2, y := 9/2, wantsToCross := true, crossing := false }] }

def oracle0 : Oracle := ⟨0, 0, 1, 0⟩

def spawnOracle0 : SpawnOracle := ⟨0, 0, 1/2⟩

/-- State in which pedestrian 5 is registered on all four crosswalks of a
single intersection (as `registerPedestrianAtIntersection` leaves it). -/
def c10State : List Intersection :=
  registerPedestrianAtIntersection [simpleIntersection .nsGreen 10000] 5 1 1

/-- The east crosswalk of `c10State`'s intersection after registration. -/
def c10EastCw : Crosswalk :=
  { minX := 2, maxX := 3, minY := 0, maxY := 1,
    approachDirection := .left, pedestrianIds := [5] }

/-- Manager state over `cxGrid` after one pedestrian (id 7) entered at
position (6.5, 20.5) — inside intersection B's west crosswalk band only. -/
def cxState : List Intersection :=
  enterCrosswalk (getIntersections (setGrid ⟨emptyGrid, []⟩ cxGrid)) 7 (13/2) (41/2)

/-- Intersection A of `cxGrid` as the detector builds it. -/
def cxInterA : Intersection :=
  { id := 0, centerX := 5, centerY := 11,
    tiles := [(4, 4), (4, 10), (4, 16)],
    phase := .nsGreen, timer := 10000, hasNS := true, hasEW := true,
    crosswalks :=
      [ { minX := 4, maxX := 5, minY := 2, maxY := 3,
          approachDirection := .down, pedestrianIds := [] },
        { minX := 4, maxX := 5, minY := 18, maxY := 19,
          approachDirection := .up, pedestrianIds := [] },
        { minX := 2, maxX := 3, minY := 4, maxY := 17,
          approachDirection := .right, pedestrianIds := [] },
        { minX := 6, maxX := 7, minY := 4, maxY := 17,
          approachDirection := .left, pedestrianIds := [] } ] }

/-- Intersection B of `cxGrid`, with pedestrian 7 registered in its west
crosswalk (the band x ∈ [6,7], y ∈ [12,25], overlapping A's east band). -/
def cxInterB : Intersection :=
  { id := 1, centerX := 27/2, centerY := 41/2,
    tiles := [(14, 12), (14, 18), (8, 24), (14, 24)],
    phase := .nsGreen, timer := 10000, hasNS := true, hasEW := true,
    crosswalks :=
      [ { minX := 8, maxX := 15, minY := 10, maxY := 11,
          approachDirection := .down, pedestrianIds := [] },
        { minX := 8, maxX := 15, minY := 26, maxY := 27,
          approachDirection := .up, pedestrianIds := [] },
        { minX := 6, maxX := 7, minY := 12, maxY := 25,
          approachDirection := .right, pedestrianIds := [7] },
        { minX := 16, maxX := 17, minY := 12, maxY := 25,
          approachDirection := .left, pedestrianIds := [] } ] }

/-- Single-intersection state with pedestrian 9 registered in the east
crosswalk band (crosswalk bands here are pairwise disjoint). -/
def wState : List Intersection :=
  enterCrosswalk [simpleIntersection .nsGreen 10000] 9 2 0

/-- The west crosswalk of `cxInterB` (pedestrian 7 registered). -/
def cxBWest : Crosswalk :=
  { minX := 6, maxX := 7, minY := 12, maxY := 25,
    approachDirection := .right, pedestrianIds := [7] }

/-- The east crosswalk of `wState`'s intersection (pedestrian 9 registered). -/
def wStateEastCw : Crosswalk :=
  { minX := 2, maxX := 3, minY := 0, maxY := 1,
    approachDirection := .left, pedestrianIds := [9] }

/-- The single intersection of `wState` after registration. -/
def wStateInter : Intersection :=
  { id := 0, centerX := 1, centerY := 1, tiles := [(0, 0)],
    phase := .nsGreen, timer := 10000, hasNS := true, hasEW := true,
    crosswalks :=
      [ { minX := 0, maxX := 1, minY := -2, maxY := -1,
          approachDirection := .down, pedestrianIds := [] },
        { minX := 0, maxX := 1, minY := 2, maxY := 3,
          approachDirection := .up, pedestrianIds := [] },
        { minX := -2, maxX := -1, minY := 0, maxY := 1,
          approachDirection := .right, pedestrianIds := [] },
        wStateEastCw ] }

/-- The car `spawnCar` creates on `wGrid` with `spawnOracle0` (lane index 0,
type index 0, zero speed jitter). -/
def carW : Car :=
  { id := 1, x := 5, y := 5, direction := .right, speed := 1/20,
    waiting := 0, carType := .jeep }

/-- One manager step of the single car on `wGrid` (no other cars; the turn
roulette's draw r3 = 1 never fires, and no turn options exist anyway). -/
def carStepW (c : Car) : Car := updateSingleCar wGrid [] oracle0 c

/-- The car after 19 steps: at x = 5.95, still in the block at (4,4); the
20th step crosses into the block at (6,4). -/
def car19 : Car := carStepW^[19] carW

/- The full-grid scans recurse over the 192×192 grid; on an abstract grid
the elaborator would otherwise expand them into tens of thousands of stuck
probes during unification.  Proofs below unfold them syntactically instead,
and concrete evaluations lift the attribute with `unseal`. -/
attribute [local irreducible] turnScanRow turnTileScan laneScanRow laneOriginScan

/-! ## Theorems -/

/-- Characterization of `canCrossAtCrosswalk` (shared helper). -/
theorem canCrossAtCrosswalk_true_iff (i : Intersection) (cw : Crosswalk) :
    canCrossAtCrosswalk i cw = true ↔
      (MIN_CROSSING_TIME_MS ≤ i.timer ∧
        ((i.phase = TrafficPhase.nsGreen ∧
            (cw.approachDirection = Direction.left ∨ cw.approachDirection = Direction.right)) ∨
         (i.phase = TrafficPhase.ewGreen ∧
            (cw.approachDirection = Direction.up ∨ cw.approachDirection = Direction.down)))) := by
  unfold canCrossAtCrosswalk
  by_cases ht : i.timer < MIN_CROSSING_TIME_MS
  · have ht' : ¬ MIN_CROSSING_TIME_MS ≤ i.timer := not_le.mpr ht
    cases hp : i.phase <;> cases hd : cw.approachDirection <;> simp [ht, ht', hp]
  · have ht' : MIN_CROSSING_TIME_MS ≤ i.timer := not_lt.mp ht
    cases hp : i.phase <;> cases hd : cw.approachDirection <;> simp [ht, ht', hp]

/-- C2: `canCrossAtCrosswalk` is false during NS_YELLOW, EW_YELLOW, ALL_RED_1
and ALL_RED_2; false whenever the remaining timer is below the 5000 ms
minimum-crossing threshold; and otherwise, during NS_GREEN it is true exactly
for crosswalks with a horizontal (Left/Right) approach direction, during
EW_GREEN exactly for vertical (Up/Down) approaches.  All cases are packaged
as one equivalence: the query succeeds iff the timer is at least 5000 ms and
the phase/approach pair is NS_GREEN with an EW approach or EW_GREEN with an
NS approach. -/
theorem claim2_canCrossAtCrosswalk_characterization (i : Intersection) (cw : Crosswalk) :
    canCrossAtCrosswalk i cw = true ↔
      (MIN_CROSSING_TIME_MS ≤ i.timer ∧
        ((i.phase = TrafficPhase.nsGreen ∧
            (cw.approachDirection = Direction.left ∨ cw.approachDirection = Direction.right)) ∨
         (i.phase = TrafficPhase.ewGreen ∧
            (cw.approachDirection = Direction.up ∨ cw.approachDirection = Direction.down)))) :=
  canCrossAtCrosswalk_true_iff i cw

/-- C3: no intersection state (any phase, any timer) lets an NS-approach
crosswalk and an EW-approach crosswalk both answer `canCrossAtCrosswalk =
true` at the same instant. -/
theorem claim3_crosswalk_mutual_exclusion (i : Intersection) (c1 c2 : Crosswalk)
    (h1 : c1.approachDirection = Direction.up ∨ c1.approachDirection = Direction.down)
    (h2 : c2.approachDirection = Direction.left ∨ c2.approachDirection = Direction.right) :
    ¬ (canCrossAtCrosswalk i c1 = true ∧ canCrossAtCrosswalk i c2 = true) := by
  rintro ⟨ha, hb⟩
  rcases (canCrossAtCrosswalk_true_iff i c1).mp ha with ⟨-, h⟩
  rcases (canCrossAtCrosswalk_true_iff i c2).mp hb with ⟨-, h'⟩
  rcases h with ⟨hp, hd⟩ | ⟨hp, hd⟩ <;> rcases h' with ⟨hp', hd'⟩ | ⟨hp', hd'⟩ <;>
    rcases h1 with e1 | e1 <;> rcases h2 with e2 | e2 <;> simp_all

/-- C3 witness: concrete NS-green intersection, a north-approach crosswalk
and a west-approach crosswalk are never simultaneously open. -/
theorem claim3_witness :
    (cwNS.approachDirection = Direction.up ∨ cwNS.approachDirection = Direction.down) ∧
    (cwEW.approachDirection = Direction.left ∨ cwEW.approachDirection = Direction.right) ∧
    ¬ (canCrossAtCrosswalk (simpleIntersection .nsGreen 10000) cwNS = true ∧
       canCrossAtCrosswalk (simpleIntersection .nsGreen 10000) cwEW = true) :=
  ⟨by decide, by decide,
    claim3_crosswalk_mutual_exclusion (simpleIntersection .nsGreen 10000) cwNS cwEW
      (by decide) (by decide)⟩

/-! ### C6: phase cycle closure -/

/-- C6 counterexample: a single `update(30000)` call — whose deltas sum to
exactly 30000 ms, the sum of all six phase durations — does not return a
fresh NS_GREEN intersection to NS_GREEN: the timer reset discards the 20000
ms overshoot and the light lands in NS_YELLOW with a fresh 2000 ms timer. -/
theorem claim6_counterexample :
    ¬ (∀ (deltas : List ℚ) (i : Intersection),
        i.phase = TrafficPhase.nsGreen → i.timer = GREEN_DURATION_MS →
        deltas.sum = 30000 →
        tlUpdateSeq deltas [i] =
          [{ i with phase := TrafficPhase.nsGreen, timer := GREEN_DURATION_MS }]) := by
  intro h
  have h30 : ([(30000 : ℚ)]).sum = 30000 := by norm_num
  have := h [30000] (simpleIntersection .nsGreen GREEN_DURATION_MS) rfl rfl h30
  exact absurd this (by decide)

theorem phaseDuration_pos (p : TrafficPhase) : 0 < getPhaseDuration p := by
  cases p <;> norm_num [getPhaseDuration, GREEN_DURATION_MS, YELLOW_DURATION_MS,
    ALL_RED_DURATION_MS]

/-- Ticking by zero deltas from a state with positive timer is the identity. -/
theorem tick_zero_run : ∀ (ds : List ℚ) (i : Intersection),
    (∀ d ∈ ds, d = 0) → 0 < i.timer →
    ds.foldl (fun j d => intersectionTick d j) i = i := by
  intro ds
  induction ds with
  | nil => intro i _ _; rfl
  | cons d ds ih =>
    intro i hz ht
    have hd : d = 0 := hz d (List.mem_cons_self d ds)
    have hstep : intersectionTick d i = i := by
      unfold intersectionTick
      rw [hd]
      simp [not_le.mpr ht]
    simp only [List.foldl_cons, hstep]
    exact ih i (fun e he => hz e (List.mem_cons_of_mem d he)) ht

/-- One phase block: nonnegative deltas summing exactly to the remaining
timer advance the phase once and leave a fresh timer. -/
theorem tick_block_run : ∀ (ds : List ℚ) (i : Intersection),
    (∀ d ∈ ds, 0 ≤ d) → 0 < i.timer → ds.sum = i.timer →
    ds.foldl (fun j d => intersectionTick d j) i =
      { i with phase := getNextPhase i.phase,
               timer := getPhaseDuration (getNextPhase i.phase) } := by
  intro ds
  induction ds with
  | nil =>
    intro i _ ht hsum
    exfalso
    simp at hsum
    rw [← hsum] at ht
    exact lt_irrefl 0 ht
  | cons d ds ih =>
    intro i hn ht hsum
    have hd0 : 0 ≤ d := hn d (List.mem_cons_self d ds)
    have hrest : ∀ e ∈ ds, 0 ≤ e := fun e he => hn e (List.mem_cons_of_mem d he)
    have hrest_sum : 0 ≤ ds.sum := List.sum_nonneg hrest
    have hsum' : d + ds.sum = i.timer := by simpa using hsum
    simp only [List.foldl_cons]
    by_cases hle : i.timer - d ≤ 0
    · -- the phase fires on this very delta, so d = timer and the rest is 0
      have hd_timer : d = i.timer := le_antisymm (by linarith) (by linarith)
      have hz : ∀ e ∈ ds, e = 0 := by
        intro e he
        have h1 : ds.sum = 0 := by linarith
        have h2 : ds.sum - e ≥ 0 := by
          have := List.sum_nonneg (l := ds.erase e)
          have hperm : ds.sum = e + (ds.erase e).sum := by
            rw [← List.sum_cons]
            exact (List.perm_cons_erase he).sum_eq
          have h3 : 0 ≤ (ds.erase e).sum :=
            List.sum_nonneg (fun f hf => hrest f (List.mem_of_mem_erase hf))
          linarith
        have h4 : 0 ≤ e := hrest e he
        linarith
      have htick : intersectionTick d i =
          { i with phase := getNextPhase i.phase,
                   timer := getPhaseDuration (getNextPhase i.phase) } := by
        unfold intersectionTick
        simp [hle]
      rw [htick]
      exact tick_zero_run ds _ hz (by simpa using phaseDuration_pos (getNextPhase i.phase))
    · push_neg at hle
      have htick : intersectionTick d i = { i with timer := i.timer - d } := by
        unfold intersectionTick
        simp [not_le.mpr hle]
      rw [htick]
      exact ih { i with timer := i.timer - d } hrest (by simpa using hle) (by simp; linarith)

theorem tlUpdateSeq_singleton : ∀ (ds : List ℚ) (i : Intersection),
    tlUpdateSeq ds [i] = [ds.foldl (fun j d => intersectionTick d j) i] := by
  intro ds
  induction ds with
  | nil => intro i; rfl
  | cons d ds ih =>
    intro i
    simp only [tlUpdateSeq, List.foldl_cons] at *
    rw [show tlUpdate d [i] = [intersectionTick d i] from rfl]
    exact ih (intersectionTick d i)

/-- C6 amended: a delta sequence returns a fresh NS_GREEN intersection to
NS_GREEN with a full timer when it decomposes into six consecutive blocks of
nonnegative deltas summing to the six phase durations in cycle order (10000,
2000, 3000, 10000, 2000, 3000 ms — total 30000 ms).  An arbitrary sequence
merely summing to 30000 ms need not close the cycle, because the timer reset
on a phase change silently discards any overshoot (see the counterexample). -/
theorem claim6_amended_cycle_closure (i : Intersection)
    (hp : i.phase = TrafficPhase.nsGreen) (ht : i.timer = GREEN_DURATION_MS)
    (l1 l2 l3 l4 l5 l6 : List ℚ)
    (hn : ∀ d ∈ l1 ++ l2 ++ l3 ++ l4 ++ l5 ++ l6, 0 ≤ d)
    (s1 : l1.sum = 10000) (s2 : l2.sum = 2000) (s3 : l3.sum = 3000)
    (s4 : l4.sum = 10000) (s5 : l5.sum = 2000) (s6 : l6.sum = 3000) :
    tlUpdateSeq (l1 ++ l2 ++ l3 ++ l4 ++ l5 ++ l6) [i] =
      [{ i with phase := TrafficPhase.nsGreen, timer := GREEN_DURATION_MS }] := by
  have hn1 : ∀ d ∈ l1, 0 ≤ d := fun d hd => hn d (by simp [hd])
  have hn2 : ∀ d ∈ l2, 0 ≤ d := fun d hd => hn d (by simp [hd])
  have hn3 : ∀ d ∈ l3, 0 ≤ d := fun d hd => hn d (by simp [hd])
  have hn4 : ∀ d ∈ l4, 0 ≤ d := fun d hd => hn d (by simp [hd])
  have hn5 : ∀ d ∈ l5, 0 ≤ d := fun d hd => hn d (by simp [hd])
  have hn6 : ∀ d ∈ l6, 0 ≤ d := fun d hd => hn d (by simp [hd])
  rw [tlUpdateSeq_singleton]
  obtain ⟨id0, cx, cy, tl, p, t, hNS, hEW, cws⟩ := i
  simp only at hp ht
  subst hp
  subst ht
  rw [List.foldl_append, List.foldl_append, List.foldl_append, List.foldl_append,
      List.foldl_append]
  rw [tick_block_run l1 _ hn1 (by norm_num [GREEN_DURATION_MS])
        (by simpa [GREEN_DURATION_MS] using s1)]
  rw [tick_block_run l2 _ hn2 (by norm_num [getNextPhase, getPhaseDuration, YELLOW_DURATION_MS])
        (by simpa [getNextPhase, getPhaseDuration, YELLOW_DURATION_MS] using s2)]
  rw [tick_block_run l3 _ hn3 (by norm_num [getNextPhase, getPhaseDuration, ALL_RED_DURATION_MS])
        (by simpa [getNextPhase, getPhaseDuration, ALL_RED_DURATION_MS] using s3)]
  rw [tick_block_run l4 _ hn4 (by norm_num [getNextPhase, getPhaseDuration, GREEN_DURATION_MS])
        (by simpa [getNextPhase, getPhaseDuration, GREEN_DURATION_MS] using s4)]
  rw [tick_block_run l5 _ hn5 (by norm_num [getNextPhase, getPhaseDuration, YELLOW_DURATION_MS])
        (by simpa [getNextPhase, getPhaseDuration, YELLOW_DURATION_MS] using s5)]
  rw [tick_block_run l6 _ hn6 (by norm_num [getNextPhase, getPhaseDuration, ALL_RED_DURATION_MS])
        (by simpa [getNextPhase, getPhaseDuration, ALL_RED_DURATION_MS] using s6)]
  simp [getNextPhase, getPhaseDuration]

/-- C6 witness: the six exact phase durations, one `update` call each, take a
fresh NS_GREEN intersection around the full cycle back to fresh NS_GREEN. -/
theorem claim6_witness :
    tlUpdateSeq [10000, 2000, 3000, 10000, 2000, 3000]
        [simpleIntersection .nsGreen GREEN_DURATION_MS] =
      [simpleIntersection .nsGreen GREEN_DURATION_MS] := by
  have h := claim6_amended_cycle_closure (simpleIntersection .nsGreen GREEN_DURATION_MS)
    rfl rfl [10000] [2000] [3000] [10000] [2000] [3000]
    (by intro d hd; fin_cases hd <;> norm_num)
    (by norm_num) (by norm_num) (by norm_num) (by norm_num) (by norm_num) (by norm_num)
  simpa using h

/-! ### C7: setGrid fully recomputes, fresh signals -/

/-- C7: `setGrid` recomputes the intersection set purely from the new grid —
two managers in arbitrarily different prior states agree after `setGrid` with
the same grid — and every intersection it produces is in the initial phase
NS_GREEN with a full 10000 ms green timer. -/
theorem claim7_setGrid_recompute_fresh (s1 s2 : TLState) (g : Grid) :
    setGrid s1 g = setGrid s2 g ∧
    (getIntersections (setGrid s1 g)).all freshSignal = true := by
  refine ⟨rfl, ?_⟩
  rw [List.all_eq_true]
  intro i hi
  simp only [getIntersections, setGrid, detectIntersections] at hi
  rcases List.mem_filterMap.mp hi with ⟨p, _, hf⟩
  by_cases hc : signalCondition g p.2
  · rw [if_pos hc] at hf
    cases hf
    rfl
  · rw [if_neg hc] at hf
    cases hf

/-! ### C5: frame ordering -/

/-- C5 counterexample: the traffic-light phase advance is not applied before
the pedestrian update consults the light state.  `MainScene.update` runs
`updateCharacters()` first, so in a frame in which NS_GREEN (10 ms left)
expires, a pedestrian's begin-crossing decision still sees NS_GREEN and
answers true, while the advanced state (NS_YELLOW) would answer false. -/
theorem claim5_counterexample :
    ¬ (∀ (delta : ℚ) (oF : Nat → Oracle) (s : SceneState),
        (mainSceneUpdate delta oF s).characters =
          citizenUpdate (tlUpdate delta s.intersections) s.characters) := by
  intro h
  have := h 16 (fun _ => oracle0) orderingScene
  exact absurd this (by decide)

/-- C5 amended: the actual in-frame order is: pedestrian update (consulting
the previous frame's light state), then the traffic-light phase advance,
then the vehicle update (which in this code does not read the light state at
all).  So a light that turns red in this frame is seen as red by nothing
until the next frame's pedestrian update. -/
theorem claim5_amended_frame_order (delta : ℚ) (oF : Nat → Oracle) (s : SceneState) :
    (mainSceneUpdate delta oF s).characters = citizenUpdate s.intersections s.characters ∧
    (mainSceneUpdate delta oF s).intersections = tlUpdate delta s.intersections ∧
    (mainSceneUpdate delta oF s).cars = trafficUpdate s.grid oF s.cars :=
  ⟨rfl, rfl, rfl⟩

/-! ### C4: signaled-intersection condition -/

theorem two_le_length_of_ne_mem {α : Type} {a b : α} {l : List α}
    (ha : a ∈ l) (hb : b ∈ l) (hne : a ≠ b) : 2 ≤ l.length := by
  cases l with
  | nil => cases ha
  | cons x xs =>
    cases xs with
    | nil =>
      rw [List.mem_singleton] at ha hb
      exact absurd (ha.trans hb.symm) hne
    | cons y ys => simp [List.length]

/-- A cluster with turn tiles of both a horizontal and a vertical direction
has at least two tiles (their directions differ, so they are distinct). -/
theorem two_le_length_of_hasNS_hasEW {tiles : List TurnTile}
    (hns : hasNSDir tiles = true) (hew : hasEWDir tiles = true) :
    2 ≤ tiles.length := by
  rcases List.any_eq_true.mp hns with ⟨t1, ht1, hd1⟩
  rcases List.any_eq_true.mp hew with ⟨t2, ht2, hd2⟩
  simp only [decide_eq_true_eq] at hd1 hd2
  refine two_le_length_of_ne_mem ht1 ht2 ?_
  intro he
  rw [he] at hd1
  rcases hd1 with e1 | e1 <;> rcases hd2 with e2 | e2 <;> rw [e1] at e2 <;> cases e2

/-- C4: a BFS-grouped cluster of RoadTurn origins receives a signal (is kept
by `detectIntersections`' filter) if and only if it contains turn tiles of
both a horizontal and a vertical lane direction and the surrounding scan
(2 lane-block-widths out on each cardinal side) finds RoadLane tiles on at
least 3 distinct sides.  The source's extra `length ≥ 2` conjunct is implied
by having both axes present.  The second conjunct records that
`detectIntersections` is exactly the clusters passing `signalCondition`,
made into fresh intersections; so an L-corner cluster (2 approaches) gets no
signal and any perpendicular cluster with 3 or 4 approaches always does. -/
theorem claim4_signal_iff_perpendicular_and_three_approaches
    (g : Grid) (tiles : List TurnTile) :
    (signalCondition g tiles = true ↔
      (hasNSDir tiles = true ∧ hasEWDir tiles = true ∧
       3 ≤ countRoadApproaches g tiles)) ∧
    detectIntersections g = (computeGroups g).enum.filterMap
      (fun p => if signalCondition g p.2 then some (mkIntersection p.1 p.2) else none) := by
  constructor
  · unfold signalCondition
    constructor
    · intro h
      simp only [decide_eq_true_eq] at h
      exact ⟨h.1, h.2.1, h.2.2.2⟩
    · rintro ⟨hns, hew, happ⟩
      have hlen := two_le_length_of_hasNS_hasEW hns hew
      simp only [decide_eq_true_eq]
      exact ⟨hns, hew, hlen, happ⟩
  · rfl

/-! ### C10: leaveCrosswalk locality -/

theorem updateCwList_none {f : Crosswalk → Crosswalk} {tx ty : Int} :
    ∀ {cws : List Crosswalk}, findCrosswalk cws tx ty = none →
      updateCwList f tx ty cws = none := by
  intro cws
  induction cws with
  | nil => intro _; rfl
  | cons cw cws ih =>
    intro h
    rw [findCrosswalk, List.find?] at h
    unfold updateCwList
    cases hc : crosswalkContains cw tx ty with
    | true => rw [hc] at h; cases h
    | false =>
      rw [hc] at h
      simp [ih h]

theorem updateCwList_some {f : Crosswalk → Crosswalk} {tx ty : Int} :
    ∀ {cws : List Crosswalk} {cw : Crosswalk}, findCrosswalk cws tx ty = some cw →
      ∃ k, cws.get? k = some cw ∧ crosswalkContains cw tx ty = true ∧
        updateCwList f tx ty cws = some (cws.set k (f cw)) := by
  intro cws
  induction cws with
  | nil => intro cw h; cases h
  | cons c0 cws ih =>
    intro cw h
    rw [findCrosswalk, List.find?] at h
    cases hc : crosswalkContains c0 tx ty with
    | true =>
      rw [hc] at h
      cases h
      refine ⟨0, rfl, hc, ?_⟩
      unfold updateCwList
      simp [hc]
    | false =>
      rw [hc] at h
      rcases ih h with ⟨k, hk, hcw, hupd⟩
      refine ⟨k + 1, by simpa using hk, hcw, ?_⟩
      unfold updateCwList
      simp only [hc, hupd]
      rfl

theorem updateFirstCrosswalk_none {f : Crosswalk → Crosswalk} {tx ty : Int} :
    ∀ {is : List Intersection}, findCrosswalkPair tx ty is = none →
      updateFirstCrosswalk f tx ty is = is := by
  intro is
  induction is with
  | nil => intro _; rfl
  | cons i rest ih =>
    intro h
    rw [findCrosswalkPair] at h
    unfold updateFirstCrosswalk
    cases hf : findCrosswalk i.crosswalks tx ty with
    | some cw => rw [hf] at h; cases h
    | none =>
      rw [hf] at h
      rw [updateCwList_none hf, ih h]

theorem updateFirstCrosswalk_some {f : Crosswalk → Crosswalk} {tx ty : Int} :
    ∀ {is : List Intersection} {r : Intersection × Crosswalk},
      findCrosswalkPair tx ty is = some r →
      ∃ j k, is.get? j = some r.1 ∧ r.1.crosswalks.get? k = some r.2 ∧
        crosswalkContains r.2 tx ty = true ∧
        updateFirstCrosswalk f tx ty is =
          is.set j { r.1 with crosswalks := r.1.crosswalks.set k (f r.2) } := by
  intro is
  induction is with
  | nil => intro r h; cases h
  | cons i rest ih =>
    intro r h
    rw [findCrosswalkPair] at h
    cases hf : findCrosswalk i.crosswalks tx ty with
    | some cw =>
      rw [hf] at h
      cases h
      rcases updateCwList_some (f := f) hf with ⟨k, hk, hcw, hupd⟩
      refine ⟨0, k, rfl, hk, hcw, ?_⟩
      unfold updateFirstCrosswalk
      rw [hupd]
      rfl
    | none =>
      rw [hf] at h
      rcases ih h with ⟨j, k, hj, hk, hcw, hupd⟩
      refine ⟨j + 1, k, by simpa using hj, hk, hcw, ?_⟩
      unfold updateFirstCrosswalk
      rw [updateCwList_none hf, hupd]
      rfl

theorem pid_not_mem_pedDelete (l : List Nat) (pid : Nat) : pid ∉ pedDelete l pid := by
  intro h
  rcases List.mem_filter.mp h with ⟨-, hne⟩
  simp at hne

/-- C10: `leaveCrosswalk(pid, x, y)` is a no-op when no crosswalk contains
the floored position; otherwise it rewrites exactly one stored crosswalk —
the one `getCrosswalkAt` resolves to, which contains the position — removing
`pid` from its pedestrian set and touching nothing else (`List.set` at one
index).  In contrast, `removeFromAllCrosswalks(pid)` removes `pid` from
every crosswalk of every intersection (and `pid` is indeed absent from a
deleted set).  In particular, after `registerPedestrianAtIntersection` has
added an id to all four crosswalks of an intersection, one `leaveCrosswalk`
call removes it from at most one of them. -/
theorem claim10_leaveCrosswalk_local (is : List Intersection) (pid : Nat) (x y : ℚ) :
    (getCrosswalkAt is x y = none → leaveCrosswalk is pid x y = is) ∧
    (∀ r, getCrosswalkAt is x y = some r →
      ∃ j k, is.get? j = some r.1 ∧ r.1.crosswalks.get? k = some r.2 ∧
        crosswalkContains r.2 ⌊x⌋ ⌊y⌋ = true ∧
        leaveCrosswalk is pid x y = is.set j { r.1 with crosswalks := r.1.crosswalks.set k { r.2 with pedestrianIds := pedDelete r.2.pedestrianIds pid } } ) ∧
    (∀ j k cw, crosswalkAtIdx is j k = some cw →
      crosswalkAtIdx (removeFromAllCrosswalks is pid) j k =
        some { cw with pedestrianIds := pedDelete cw.pedestrianIds pid }) ∧
    (∀ l : List Nat, pid ∉ pedDelete l pid) := by
  refine ⟨?_, ?_, ?_, fun l => pid_not_mem_pedDelete l pid⟩
  · intro h
    exact updateFirstCrosswalk_none h
  · intro r h
    exact updateFirstCrosswalk_some h
  · intro j k cw h
    unfold crosswalkAtIdx at h ⊢
    unfold removeFromAllCrosswalks
    rw [List.get?_map]
    cases hj : is.get? j with
    | none => rw [hj] at h; simp at h
    | some i =>
      rw [hj] at h
      have h2 : i.crosswalks.get? k = some cw := h
      simp only [Option.map_some']
      try dsimp only
      rw [List.get?_map, h2]
      rfl

/-- C10 witness: with pedestrian 5 registered on all four crosswalks of one
intersection, a `leaveCrosswalk` far from every band changes nothing, and
`removeFromAllCrosswalks` clears the id from the east crosswalk too. -/
theorem claim10_witness :
    leaveCrosswalk c10State 5 50 50 = c10State ∧
    crosswalkAtIdx (removeFromAllCrosswalks c10State 5) 0 3 =
      some { c10EastCw with pedestrianIds := pedDelete c10EastCw.pedestrianIds 5 } :=
  ⟨(claim10_leaveCrosswalk_local c10State 5 50 50).1 (by decide),
   (claim10_leaveCrosswalk_local c10State 5 50 50).2.2.1 0 3 c10EastCw (by decide)⟩

/-! ### C1: pedestrian yield at crosswalk zones -/

theorem probeBlocked_iff (is : List Intersection) (px py : ℚ) :
    crosswalkProbeBlocked is px py = true ↔ resolvesNonempty is px py := by
  constructor
  · intro hb
    unfold crosswalkProbeBlocked at hb
    cases h : getCrosswalkAt is px py with
    | none => rw [h] at hb; cases hb
    | some r =>
      rw [h] at hb
      exact ⟨r, h, List.ne_nil_of_length_pos (of_decide_eq_true hb)⟩
  · intro hr
    unfold resolvesNonempty at hr
    obtain ⟨r, h, hne⟩ := hr
    unfold crosswalkProbeBlocked
    rw [h]
    exact decide_eq_true (List.length_pos.mpr hne)

theorem probe_ite_false_iff (b1 b2 b3 : Bool) :
    (if b1 then false else if b2 then false else if b3 then false else true) = false ↔
      (b1 = true ∨ b2 = true ∨ b3 = true) := by
  cases b1 <;> cases b2 <;> cases b3 <;> simp

theorem canCarEnter_false_iff (is : List Intersection) (carX carY : ℚ)
    (d : Direction) :
    canCarEnterCrosswalkZone is carX carY d = false ↔
      (resolvesNonempty is (probeAhead carX carY d 1).1 (probeAhead carX carY d 1).2 ∨
       resolvesNonempty is (probeAhead carX carY d 2).1 (probeAhead carX carY d 2).2 ∨
       resolvesNonempty is (probeAhead carX carY d 3).1 (probeAhead carX carY d 3).2) := by
  simp only [canCarEnterCrosswalkZone]
  rw [probe_ite_false_iff]
  simp [probeBlocked_iff, probeAhead]

theorem signals_crosswalks_enumFrom (f : Nat → TrafficPhase × ℚ) :
    ∀ (n : Nat) (is : List Intersection),
      ((is.enumFrom n).map
          (fun p => { p.2 with phase := (f p.1).1, timer := (f p.1).2 })).map
        Intersection.crosswalks = is.map Intersection.crosswalks := by
  intro n is
  induction is generalizing n with
  | nil => rfl
  | cons i rest ih => simp [List.enumFrom, ih]

theorem withSignals_crosswalks (is : List Intersection)
    (f : Nat → TrafficPhase × ℚ) :
    (withSignals is f).map Intersection.crosswalks =
      is.map Intersection.crosswalks :=
  signals_crosswalks_enumFrom f 0 is

theorem findCrosswalkPair_congr :
    ∀ {is1 is2 : List Intersection},
      is1.map Intersection.crosswalks = is2.map Intersection.crosswalks →
      ∀ tx ty : Int,
        Option.map Prod.snd (findCrosswalkPair tx ty is1) =
          Option.map Prod.snd (findCrosswalkPair tx ty is2) := by
  intro is1
  induction is1 with
  | nil =>
    intro is2 h tx ty
    cases is2 with
    | nil => rfl
    | cons i2 r2 => simp at h
  | cons i1 r1 ih =>
    intro is2 h tx ty
    cases is2 with
    | nil => simp at h
    | cons i2 r2 =>
      simp only [List.map_cons, List.cons.injEq] at h
      simp only [findCrosswalkPair]
      unfold findCrosswalk
      rw [h.1]
      cases hf : List.find? (fun cw => crosswalkContains cw tx ty) i2.crosswalks with
      | some cw => rfl
      | none => exact ih h.2 tx ty

theorem crosswalkProbeBlocked_congr {is1 is2 : List Intersection}
    (h : is1.map Intersection.crosswalks = is2.map Intersection.crosswalks)
    (px py : ℚ) :
    crosswalkProbeBlocked is1 px py = crosswalkProbeBlocked is2 px py := by
  unfold crosswalkProbeBlocked getCrosswalkAt
  have hc := findCrosswalkPair_congr h ⌊px⌋ ⌊py⌋
  cases h1 : findCrosswalkPair ⌊px⌋ ⌊py⌋ is1 with
  | none =>
    cases h2 : findCrosswalkPair ⌊px⌋ ⌊py⌋ is2 with
    | none => rfl
    | some r2 => rw [h1, h2] at hc; cases hc
  | some r1 =>
    cases h2 : findCrosswalkPair ⌊px⌋ ⌊py⌋ is2 with
    | none => rw [h1, h2] at hc; cases hc
    | some r2 =>
      rw [h1, h2] at hc
      simp only [Option.map_some'] at hc
      injection hc with hc2
      change decide (r1.2.pedestrianIds.length > 0) =
        decide (r2.2.pedestrianIds.length > 0)
      rw [hc2]

theorem findCrosswalkPair_sound (tx ty : Int) :
    ∀ (is : List Intersection) (r : Intersection × Crosswalk),
      findCrosswalkPair tx ty is = some r →
      r.1 ∈ is ∧ r.2 ∈ r.1.crosswalks ∧ crosswalkContains r.2 tx ty = true := by
  intro is
  induction is with
  | nil => intro r h; simp [findCrosswalkPair] at h
  | cons i rest ih =>
    intro r h
    simp only [findCrosswalkPair] at h
    cases hf : findCrosswalk i.crosswalks tx ty with
    | some cw =>
      rw [hf] at h
      injection h with h
      subst h
      unfold findCrosswalk at hf
      have hp := List.find?_some hf
      exact ⟨List.mem_cons_self i rest, List.mem_of_find?_eq_some hf, hp⟩
    | none =>
      rw [hf] at h
      obtain ⟨m1, m2, m3⟩ := ih r h
      exact ⟨List.mem_cons_of_mem i m1, m2, m3⟩

theorem findCrosswalkPair_exists (tx ty : Int) :
    ∀ (is : List Intersection),
      (∃ i ∈ is, ∃ cw ∈ i.crosswalks, crosswalkContains cw tx ty = true) →
      ∃ r, findCrosswalkPair tx ty is = some r := by
  intro is
  induction is with
  | nil =>
    rintro ⟨i, hi, _⟩
    cases hi
  | cons i0 rest ih =>
    rintro ⟨i, hi, cw, hcw, hc⟩
    simp only [findCrosswalkPair]
    cases hf : findCrosswalk i0.crosswalks tx ty with
    | some cw0 => exact ⟨(i0, cw0), rfl⟩
    | none =>
      rcases List.mem_cons.mp hi with heq | hi2
      · subst heq
        unfold findCrosswalk at hf
        exact absurd hc (List.find?_eq_none.mp hf cw hcw)
      · exact ih ⟨i, hi2, cw, hcw, hc⟩

theorem bandsOverlap_of_contains {c1 c2 : Crosswalk} {tx ty : Int}
    (h1 : crosswalkContains c1 tx ty = true)
    (h2 : crosswalkContains c2 tx ty = true) :
    bandsOverlap c1 c2 = true := by
  unfold crosswalkContains at h1 h2
  unfold bandsOverlap
  simp only [decide_eq_true_eq] at h1 h2 ⊢
  omega

theorem resolves_iff_some_of_disjoint {is : List Intersection}
    (hd : crosswalksDisjoint is) (x y : ℚ) :
    resolvesNonempty is x y ↔ someNonemptyCrosswalkAt is x y := by
  constructor
  · intro h
    unfold resolvesNonempty at h
    unfold someNonemptyCrosswalkAt
    obtain ⟨r, hr, hne⟩ := h
    have hs := findCrosswalkPair_sound ⌊x⌋ ⌊y⌋ is r hr
    exact ⟨r.1, hs.1, r.2, hs.2.1, hs.2.2, hne⟩
  · intro h
    unfold someNonemptyCrosswalkAt at h
    unfold resolvesNonempty
    obtain ⟨i, hi, cw, hcw, hc, hne⟩ := h
    obtain ⟨r, hr⟩ := findCrosswalkPair_exists ⌊x⌋ ⌊y⌋ is ⟨i, hi, cw, hcw, hc⟩
    have hs := findCrosswalkPair_sound ⌊x⌋ ⌊y⌋ is r hr
    have hov := bandsOverlap_of_contains hs.2.2 hc
    have heq := hd r.1 hs.1 r.2 hs.2.1 i hi cw hcw hov
    refine ⟨r, hr, ?_⟩
    rw [heq.2]
    exact hne

/-- C1 (amended): `canCarEnterCrosswalkZone` returns false iff at least one
of the three probed positions resolves — via the `getCrosswalkAt` FIRST-match
scan, in intersection creation order and crosswalk push order — to a
crosswalk with a registered pedestrian; the result is independent of every
intersection's light phase and timer; and whenever no subtile lies in two
distinct crosswalk bands, that first-match reading coincides with the
claim's reading "the position lies inside some crosswalk whose
registered-pedestrian set is non-empty".  Without disjointness the claim's
reading is false: an overlapping, occupied band can be shadowed by an
earlier-created empty one (see the counterexample). -/
theorem claim1_canCarEnter_characterization (is : List Intersection)
    (carX carY : ℚ) (d : Direction) :
    (canCarEnterCrosswalkZone is carX carY d = false ↔
       (resolvesNonempty is (probeAhead carX carY d 1).1 (probeAhead carX carY d 1).2 ∨
        resolvesNonempty is (probeAhead carX carY d 2).1 (probeAhead carX carY d 2).2 ∨
        resolvesNonempty is (probeAhead carX carY d 3).1 (probeAhead carX carY d 3).2)) ∧
    (∀ f, canCarEnterCrosswalkZone (withSignals is f) carX carY d =
        canCarEnterCrosswalkZone is carX carY d) ∧
    (crosswalksDisjoint is →
      (canCarEnterCrosswalkZone is carX carY d = false ↔
        (someNonemptyCrosswalkAt is (probeAhead carX carY d 1).1 (probeAhead carX carY d 1).2 ∨
         someNonemptyCrosswalkAt is (probeAhead carX carY d 2).1 (probeAhead carX carY d 2).2 ∨
         someNonemptyCrosswalkAt is (probeAhead carX carY d 3).1 (probeAhead carX carY d 3).2))) := by
  refine ⟨canCarEnter_false_iff is carX carY d, ?_, ?_⟩
  · intro f
    simp only [canCarEnterCrosswalkZone,
      crosswalkProbeBlocked_congr (withSignals_crosswalks is f)]
  · intro hd
    rw [canCarEnter_false_iff]
    simp only [resolves_iff_some_of_disjoint hd]

unseal turnScanRow turnTileScan in
theorem cx_turnScan :
    turnTileScan cxGrid GRID_HEIGHT =
      [⟨4, 4, .up⟩, ⟨4, 10, .right⟩, ⟨14, 12, .up⟩, ⟨4, 16, .up⟩,
       ⟨14, 18, .up⟩, ⟨8, 24, .right⟩, ⟨14, 24, .up⟩] := by
  decide

theorem cx_state_eval : cxState = [cxInterA, cxInterB] := by
  simp only [cxState, getIntersections, setGrid, detectIntersections,
    computeGroups]
  rw [cx_turnScan]
  decide

/-- C1 counterexample: over `cxGrid` the detector creates two intersections
whose crosswalk bands overlap on x ∈ [6,7], y ∈ [12,17].  With pedestrian 7
registered in intersection B's west band, a car at (4, 14) heading right is
allowed in (`canCarEnterCrosswalkZone = true`) although the position two
subtiles ahead lies inside that occupied band: `getCrosswalkAt` resolves the
tile to intersection A's east band, which is empty and shadows B's.  So the
claim's "some crosswalk with ≥ 1 registered pedestrian blocks entry" reading
of the result is false as stated. -/
theorem claim1_counterexample :
    ¬ (∀ (is : List Intersection) (carX carY : ℚ) (d : Direction),
        canCarEnterCrosswalkZone is carX carY d = false ↔
          (someNonemptyCrosswalkAt is (probeAhead carX carY d 1).1 (probeAhead carX carY d 1).2 ∨
           someNonemptyCrosswalkAt is (probeAhead carX carY d 2).1 (probeAhead carX carY d 2).2 ∨
           someNonemptyCrosswalkAt is (probeAhead carX carY d 3).1 (probeAhead carX carY d 3).2)) := by
  intro h
  have hsn : someNonemptyCrosswalkAt cxState
      (probeAhead 4 14 .right 2).1 (probeAhead 4 14 .right 2).2 := by
    rw [cx_state_eval]
    exact ⟨cxInterB, by decide, cxBWest, by decide, by decide, by decide⟩
  have hfalse := (h cxState 4 14 .right).mpr (Or.inr (Or.inl hsn))
  rw [cx_state_eval] at hfalse
  exact absurd hfalse (by decide)

/-- C1 witness: `wState` has pairwise disjoint crosswalk bands and a
pedestrian registered in the east band; by the amended characterization a
car at the origin heading right is denied entry. -/
theorem claim1_witness :
    crosswalksDisjoint wState ∧
    canCarEnterCrosswalkZone wState 0 0 .right = false := by
  have hd : crosswalksDisjoint wState := by
    unfold crosswalksDisjoint
    decide
  have hw : wState = [wStateInter] := by decide
  have hsn : someNonemptyCrosswalkAt wState
      (probeAhead 0 0 .right 2).1 (probeAhead 0 0 .right 2).2 := by
    rw [hw]
    exact ⟨wStateInter, by decide, wStateEastCw, by decide, by decide, by decide⟩
  exact ⟨hd, ((claim1_canCarEnter_characterization wState 0 0 .right).2.2 hd).mpr
    (Or.inr (Or.inl hsn))⟩

/-! ### C9: spawnCar success and failure modes -/

theorem spawnCar_cons (g : Grid) (o : SpawnOracle) (freshId : Nat)
    (cars : List Car) (l : LaneOrigin) (ls : List LaneOrigin)
    (hscan : laneOriginScan g GRID_HEIGHT = l :: ls) :
    spawnCar g o freshId cars =
      (if cars.any (fun car =>
          (car.x - (((listPick l ls o.rLane).x : ℚ) + 1)) ^ 2 +
            (car.y - (((listPick l ls o.rLane).y : ℚ) + 1)) ^ 2 < 9/4) then
        (false, cars)
      else
        (true, cars ++
          [{ id := freshId,
             x := ((listPick l ls o.rLane).x : ℚ) + 1,
             y := ((listPick l ls o.rLane).y : ℚ) + 1,
             direction := (listPick l ls o.rLane).dir,
             speed := CAR_SPEED + (o.rSpeed - 1/2) * (1/100),
             waiting := 0,
             carType := listPick CarType.jeep [.taxi, .waymo, .robotaxi, .zoox] o.rType }])) := by
  unfold spawnCar
  rw [hscan]

/-- C9: `spawnCar` returns failure with the car list untouched when the grid
has no drivable lane-block origin carrying a direction, and also when some
existing car lies within 1.5 subtiles (squared Euclidean distance < 9/4) of
the randomly chosen block's center; otherwise it succeeds and appends
exactly one car at that center, heading in the lane's stored direction, with
speed CAR_SPEED plus a jitter of magnitude at most 1/200 (= 0.005); being a
total function, it raises no exception. -/
theorem claim9_spawnCar_characterization (g : Grid) (o : SpawnOracle)
    (freshId : Nat) (cars : List Car)
    (h0 : 0 ≤ o.rSpeed) (h1 : o.rSpeed < 1) :
    (laneOriginScan g GRID_HEIGHT = [] → spawnCar g o freshId cars = (false, cars)) ∧
    (∀ l ls, laneOriginScan g GRID_HEIGHT = l :: ls →
      ((cars.any (fun car =>
          (car.x - (((listPick l ls o.rLane).x : ℚ) + 1)) ^ 2 +
            (car.y - (((listPick l ls o.rLane).y : ℚ) + 1)) ^ 2 < 9/4) = true →
        spawnCar g o freshId cars = (false, cars)) ∧
       (cars.any (fun car =>
          (car.x - (((listPick l ls o.rLane).x : ℚ) + 1)) ^ 2 +
            (car.y - (((listPick l ls o.rLane).y : ℚ) + 1)) ^ 2 < 9/4) = false →
        |CAR_SPEED + (o.rSpeed - 1/2) * (1/100) - CAR_SPEED| ≤ 1/200 ∧
        spawnCar g o freshId cars = (true, cars ++
          [{ id := freshId,
             x := ((listPick l ls o.rLane).x : ℚ) + 1,
             y := ((listPick l ls o.rLane).y : ℚ) + 1,
             direction := (listPick l ls o.rLane).dir,
             speed := CAR_SPEED + (o.rSpeed - 1/2) * (1/100),
             waiting := 0,
             carType := listPick CarType.jeep [.taxi, .waymo, .robotaxi, .zoox] o.rType }])))) := by
  refine ⟨?_, ?_⟩
  · intro hscan
    unfold spawnCar
    rw [hscan]
  · intro l ls hscan
    refine ⟨?_, ?_⟩
    · intro hany
      rw [spawnCar_cons g o freshId cars l ls hscan]
      simp [hany]
    · intro hany
      refine ⟨?_, ?_⟩
      · have e : CAR_SPEED + (o.rSpeed - 1/2) * (1/100) - CAR_SPEED
            = (o.rSpeed - 1/2) * (1/100) := by ring
        rw [e, abs_le]
        constructor <;> linarith
      · rw [spawnCar_cons g o freshId cars l ls hscan]
        simp [hany]

unseal laneScanRow laneOriginScan in
theorem wGrid_scan :
    laneOriginScan wGrid GRID_HEIGHT = [⟨4, 4, .right⟩, ⟨6, 4, .right⟩] := by
  decide

unseal laneScanRow laneOriginScan in
theorem emptyGrid_scan : laneOriginScan emptyGrid GRID_HEIGHT = [] := by
  decide

/-- C9 witness: on the all-grass grid the spawn fails and leaves the list
unchanged; on `wGrid` with an empty car list it succeeds and appends exactly
`carW`; respawning next to `carW` fails and leaves the list unchanged. -/
theorem claim9_witness :
    ((0 : ℚ) ≤ spawnOracle0.rSpeed ∧ spawnOracle0.rSpeed < 1) ∧
    spawnCar emptyGrid spawnOracle0 1 [] = (false, []) ∧
    spawnCar wGrid spawnOracle0 1 [] = (true, [carW]) ∧
    spawnCar wGrid spawnOracle0 2 [carW] = (false, [carW]) := by
  refine ⟨⟨by decide, by decide⟩, ?_, ?_, ?_⟩
  · exact (claim9_spawnCar_characterization emptyGrid spawnOracle0 1 []
      (by decide) (by decide)).1 emptyGrid_scan
  · have h := ((claim9_spawnCar_characterization wGrid spawnOracle0 1 []
      (by decide) (by decide)).2 ⟨4, 4, .right⟩ [⟨6, 4, .right⟩] wGrid_scan).2
      (by decide)
    rw [h.2]
    decide
  · exact ((claim9_spawnCar_characterization wGrid spawnOracle0 2 [carW]
      (by decide) (by decide)).2 ⟨4, 4, .right⟩ [⟨6, 4, .right⟩] wGrid_scan).1
      (by decide)
